import Mathlib

/-
  Verification of the arXiv/inSPIRE harvester (src/arxiv.py).

  Shallow embedding of the harvesting engine: the Skimmer field extractor,
  the arXiv resumption-token harvest loop with 503 backoff, the Paper
  post-processing and date defaults, and the inSPIRE citation enrichment.
  Library behaviour the source relies on (BeautifulSoup tag search, Python
  str methods, pandas column access, the regex in sleep_off_503) is
  embedded as executable Lean functions mirroring the library semantics.
-/

/-- Python exception classes that the source code can raise or catch. -/
inductive PyErr where
  | keyError
  | typeError
  | valueError
  | attributeError
  | transportError
  | incompleteTrace
deriving DecidableEq, Repr

/-- A calendar date (year, month, day). -/
structure CalDate where
  year : Nat
  month : Nat
  day : Nat
deriving DecidableEq, Repr

/-- A cell of the record table (pandas object cell): NaN, a string, a list
of strings, a parsed timestamp, or an integer. -/
inductive Cell where
  | absent
  | str (s : String)
  | strList (l : List String)
  | timestamp (d : CalDate)
  | int (n : Nat)
deriving DecidableEq, Repr

/-- An XML node as produced by the markup parser: either a text node or an
element with a tag name and an ordered list of children. -/
inductive Node where
  | text (s : String)
  | elem (tag : String) (children : List Node)

/-- Python whitespace characters (str.strip default set). -/
def isPySpace (c : Char) : Bool :=
  c = ' ' || c = '\t' || c = '\n' || c = '\r' || c = Char.ofNat 11 || c = Char.ofNat 12

/-- Python str.strip: drop leading and trailing whitespace. -/
def pyStrip (s : String) : String :=
  String.mk (((s.data.dropWhile isPySpace).reverse.dropWhile isPySpace).reverse)

mutual
/-- All descendant nodes of a node, in document (preorder) order,
excluding the node itself: BeautifulSoup's `descendants`. -/
def nodeDesc : Node → List Node
  | Node.text _ => []
  | Node.elem _ cs => listDesc cs
/-- All nodes of a forest together with their descendants, document order. -/
def listDesc : List Node → List Node
  | [] => []
  | n :: ns => n :: (nodeDesc n ++ listDesc ns)
end

mutual
/-- The textual contents of all text nodes in a subtree, document order
(BeautifulSoup's `strings`, including the node's own text). -/
def nodeStrings : Node → List String
  | Node.text s => [s]
  | Node.elem _ cs => listStrings cs
/-- Textual contents of a forest, document order. -/
def listStrings : List Node → List String
  | [] => []
  | n :: ns => nodeStrings n ++ listStrings ns
end

/-- Whether a node is an element with the given tag name. -/
def hasTag (tag : String) : Node → Bool
  | Node.text _ => false
  | Node.elem t _ => t = tag

/-- BeautifulSoup `node.find_all(tag)`: all descendant elements with the
given tag name, in document order, at any depth. -/
def find_all (n : Node) (tag : String) : List Node :=
  (nodeDesc n).filter (hasTag tag)

/-- BeautifulSoup `node.find(tag)`: the first matching descendant, if any. -/
def findTag (n : Node) (tag : String) : Option Node :=
  (find_all n tag).head?

/-- BeautifulSoup `node.get_text(" ", strip=True)`: every string in the
subtree is stripped, whitespace-only strings are dropped, and the rest are
joined with a single space. -/
def get_text (n : Node) : String :=
  String.intercalate " " (((nodeStrings n).map pyStrip).filter (fun s => s ≠ ""))

/-- BeautifulSoup `node.text`: concatenation of all strings in the subtree,
unstripped and unseparated. -/
def elemText (n : Node) : String :=
  String.join (nodeStrings n)

namespace Skimmer

/-- Skimmer.find (src/arxiv.py lines 216-220): find all elements with the
given keyword tag inside the record fragment and return their extracted
texts, in document order. -/
def find (bowl : Node) (keyword : String) : List String :=
  (find_all bowl keyword).map get_text

/-- The cardinality collapse applied by Skimmer.skim (lines 230-240) to a
single field: an empty match list becomes NaN, a singleton becomes the
scalar text, anything longer stays a list. -/
def skimField (bowl : Node) (column : String) : Cell :=
  match find bowl column with
  | [] => Cell.absent
  | [s] => Cell.str s
  | l => Cell.strList l

/-- One row of the harvested table, keyed by column name. -/
abbrev Row := List (String × Cell)

/-- Skimmer.skim (lines 222-243): for each record fragment, build a row by
applying the cardinality collapse to each requested column, and append the
rows to the pile in record order. -/
def skim (bowls : List Node) (schema : List String) : List Row :=
  bowls.map (fun bowl => schema.map (fun column => (column, skimField bowl column)))

/-- Skimmer.scoop (lines 202-214): extract the `record`-tagged elements of
every page in the pot and flatten them, preserving page order then
in-page document order. -/
def scoop (pot : List Node) : List Node :=
  (pot.map (fun soup => find_all soup "record")).flatten

end Skimmer

namespace arXiv

/-- The fixed OAI-PMH base endpoint (src/arxiv.py line 281). -/
def BASE_URL : String := "http://export.arxiv.org/oai2?verb=ListRecords&"

/-- The fixed metadata-format parameter (line 282). -/
def METADATAPREFIX : String := "arXiv"

/-- The initial query URL built in arXiv.__init__ (lines 300-301). -/
def initialUrl (from_ to_ set_ : String) : String :=
  BASE_URL ++ "from=" ++ from_ ++ "&until=" ++ to_ ++
    "&metadataPrefix=" ++ METADATAPREFIX ++ "&set=" ++ set_

/-- arXiv.check_for_token (lines 356-366): look for the first resumptionToken
element under the first ListRecords element; any AttributeError (no
ListRecords, or no token under it) is caught and yields None. -/
def check_for_token (soup : Node) : Option Node :=
  match findTag soup "ListRecords" with
  | none => none
  | some lr => findTag lr "resumptionToken"

/-- Drop a literal character sequence from the front of a list, or fail. -/
def dropLit : List Char → List Char → Option (List Char)
  | [], cs => some cs
  | _ :: _, [] => none
  | l :: ls, c :: cs => if c = l then dropLit ls cs else none

/-- Digits to the natural number they denote in decimal. -/
def digitsToNat (ds : List Char) : Nat :=
  ds.foldl (fun a c => 10 * a + (c.toNat - 48)) 0

/-- Try to read `Retry after <digits> seconds` starting exactly here. -/
def retryHintAt (cs : List Char) : Option Nat :=
  match dropLit "Retry after ".data cs with
  | none => none
  | some rest =>
    let ds := rest.takeWhile Char.isDigit
    if ds.isEmpty then none
    else
      match dropLit " seconds".data (rest.dropWhile Char.isDigit) with
      | some _ => some (digitsToNat ds)
      | none => none

/-- Scan for the leftmost occurrence of the retry pattern, as the regex
match of `[\s\S]*?Retry after (\d+) seconds[\s\S]*` does. -/
def retryScan : List Char → Option Nat
  | [] => none
  | c :: rest =>
    match retryHintAt (c :: rest) with
    | some n => some n
    | none => retryScan rest

/-- arXiv.sleep_off_503 (lines 368-376): match the 503 body against the
retry pattern and return the number of seconds to sleep; when the pattern
is absent the regex match is None and `t[1]` raises an uncaught TypeError,
modelled by `none`. -/
def sleep_off_503 (text : String) : Option Nat :=
  retryScan text.data

/-- One result of `requests.get`: a parsed successful page (response.ok),
an HTTP error status with its body text, or a raised transport-level
exception (timeout, connection refused, DNS). -/
inductive FetchResult where
  | ok (soup : Node)
  | httpError (status : Nat) (body : String)
  | transportFailure

/-- Observable harvesting activity: every URL a GET was issued against, the
pot of successfully fetched pages, and each sleep duration performed. -/
structure HarvestLog where
  urls : List String
  pot : List Node
  sleeps : List Nat

/-- How the harvest loop of arXiv.harvest ends. -/
inductive Outcome where
  | done
  | transportError
  | typeError503
  | outOfTrace
deriving DecidableEq, Repr

/-- arXiv.harvest (lines 312-347): the `while True` loop, driven by the
sequence of fetch results the network returns. Each iteration issues a GET
on the current URL; an ok response is added to the pot and its resumption
token (if any) yields the next URL `BASE_URL ++ resumptionToken=<text>`,
else the loop breaks; a 503 sleeps for the hinted duration and retries the
same URL (TypeError if the hint is malformed); any other status breaks;
a transport failure propagates as an exception. -/
def harvestLoop : List FetchResult → String → HarvestLog → HarvestLog × Outcome
  | [], _, log => (log, Outcome.outOfTrace)
  | r :: rest, url, log =>
    let log1 : HarvestLog := { log with urls := log.urls ++ [url] }
    match r with
    | FetchResult.ok soup =>
      let log2 : HarvestLog := { log1 with pot := log1.pot ++ [soup] }
      match check_for_token soup with
      | some tok => harvestLoop rest (BASE_URL ++ "resumptionToken=" ++ elemText tok) log2
      | none => (log2, Outcome.done)
    | FetchResult.httpError status body =>
      if status = 503 then
        match sleep_off_503 body with
        | some t => harvestLoop rest url { log1 with sleeps := log1.sleeps ++ [t] }
        | none => (log1, Outcome.typeError503)
      else (log1, Outcome.done)
    | FetchResult.transportFailure => (log1, Outcome.transportError)

end arXiv

/-- The text of a page's resumption token (empty when there is none). -/
def tokenText (p : Node) : String :=
  match arXiv.check_for_token p with
  | some tok => elemText tok
  | none => ""

/-- The resumption URL built from a page carrying a token (line 338). -/
def tokenUrl (p : Node) : String :=
  arXiv.BASE_URL ++ "resumptionToken=" ++ tokenText p

/-- The sequence of URLs fetched while consuming the given pages starting
from `url`: each page's fetch uses the URL derived from its predecessor. -/
def urlChain (url : String) : List Node → List String
  | [] => []
  | p :: ps => url :: urlChain (tokenUrl p) ps

/-- The URL the cursor sits at after consuming the given pages from `url`. -/
def resumeAfter (url : String) : List Node → String
  | [] => url
  | p :: ps => resumeAfter (tokenUrl p) ps

/-- The full run performed by arXiv.__init__ (lines 308-310): harvest, then
scoop, then skim into the pile. When harvest ends by an uncaught exception
(transport failure, or TypeError on a malformed 503 hint), scoop and skim
never run and the caller's pile receives no records. -/
def arXivRun (trace : List arXiv.FetchResult) (url₀ : String) (schema : List String) :
    arXiv.HarvestLog × Except PyErr (List Skimmer.Row) :=
  let r := arXiv.harvestLoop trace url₀ ⟨[], [], []⟩
  match r.2 with
  | arXiv.Outcome.done => (r.1, Except.ok (Skimmer.skim (Skimmer.scoop r.1.pot) schema))
  | arXiv.Outcome.transportError => (r.1, Except.error PyErr.transportError)
  | arXiv.Outcome.typeError503 => (r.1, Except.error PyErr.typeError)
  | arXiv.Outcome.outOfTrace => (r.1, Except.error PyErr.incompleteTrace)

namespace Paper

/-- Gregorian leap-year rule. -/
def isLeap (y : Nat) : Bool :=
  (y % 4 = 0 && y % 100 ≠ 0) || y % 400 = 0

/-- Number of days in a month of a given year. -/
def daysInMonth (y m : Nat) : Nat :=
  if m = 2 then (if isLeap y then 29 else 28)
  else if m = 4 || m = 6 || m = 9 || m = 11 then 30
  else 31

/-- The calendar date one day earlier. -/
def predDay : CalDate → CalDate
  | ⟨y, m, d⟩ =>
    if 1 < d then ⟨y, m, d - 1⟩
    else if 1 < m then ⟨y, m - 1, daysInMonth y (m - 1)⟩
    else ⟨y - 1, 12, 31⟩

/-- datetime subtraction of `timedelta(i)`: i days back, calendar-wise
(the time of day is preserved by the subtraction, so only the date part
matters for strftime). -/
def subDays (dt : CalDate) : Nat → CalDate
  | 0 => dt
  | i + 1 => subDays (predDay dt) i

/-- Zero-pad a number to a given width, as strftime does. -/
def padZeros (w : Nat) (n : Nat) : String :=
  let s := toString n
  String.mk (List.replicate (w - s.length) '0') ++ s

/-- strftime with format `%Y-%m-%d`. -/
def formatYMD (d : CalDate) : String :=
  padZeros 4 d.year ++ "-" ++ padZeros 2 d.month ++ "-" ++ padZeros 2 d.day

/-- Paper.days_back (src/arxiv.py lines 112-119): the date for i days back
from now, rendered `YYYY-mm-dd`. -/
def days_back (now : CalDate) (i : Nat) : String :=
  formatYMD (subDays now i)

/-- Paper.check_date_format (lines 126-135): parse the supplied date with
dateutil (a capability, passed in as `parse`), re-render it as
`YYYY-mm-dd`; a ValueError from parsing propagates. -/
def check_date_format (parse : String → Option CalDate) (date : String) :
    Except PyErr String :=
  match parse date with
  | some d => Except.ok (formatYMD d)
  | none => Except.error PyErr.valueError

/-- The known classification sets (line 63). -/
def set_dict : List String := ["physics:astro-ph"]

/-- The full field template (lines 84-96). -/
def template : List String :=
  ["id", "title", "abstract", "author", "setSpec", "categories",
   "created", "updated", "comments", "doi", "datestamp"]

/-- The `fields` argument: the sentinel "everything" or an explicit list. -/
inductive FieldsArg where
  | everything
  | explicitList (l : List String)

/-- The configuration Paper.__init__ ends up with. -/
structure PaperCfg where
  from_ : String
  to_ : String
  set_ : String
  field : List String

/-- Paper.__init__ (lines 57-110): default the start date to one day back
and the end date to today, normalize explicit dates, validate the set
against set_dict (ValueError otherwise), and resolve the field schema. -/
def mkPaper (now : CalDate) (parse : String → Option CalDate)
    (from? to? : Option String) (set_ : String) (fields : FieldsArg) :
    Except PyErr PaperCfg :=
  match (match from? with
         | none => Except.ok (days_back now 1)
         | some s => check_date_format parse s) with
  | Except.error e => Except.error e
  | Except.ok f =>
    match (match to? with
           | none => Except.ok (days_back now 0)
           | some s => check_date_format parse s) with
    | Except.error e => Except.error e
    | Except.ok t =>
      if set_dict.contains set_ then
        Except.ok { from_ := f, to_ := t, set_ := set_,
                    field := match fields with
                             | FieldsArg.everything => template
                             | FieldsArg.explicitList l => l }
      else Except.error PyErr.valueError

end Paper

/-- Evaluate a fallible function on every element, stopping at the first
raised exception (Python's eager evaluation of a column operation). -/
def mapExcept (f : α → Except PyErr β) : List α → Except PyErr (List β)
  | [] => Except.ok []
  | a :: as =>
    match f a with
    | Except.error e => Except.error e
    | Except.ok b =>
      match mapExcept f as with
      | Except.error e => Except.error e
      | Except.ok bs => Except.ok (b :: bs)

namespace Paper

/-- The pile as a dataframe: its column names and its rows. -/
structure PileDF where
  cols : List String
  rows : List Skimmer.Row

/-- Read a column (`self.pile["c"]`): KeyError when the column is absent. -/
def getCol (p : PileDF) (c : String) : Except PyErr (List Cell) :=
  if p.cols.contains c then
    Except.ok (p.rows.map (fun r => (r.lookup c).getD Cell.absent))
  else Except.error PyErr.keyError

/-- Overwrite or add one keyed cell in a row. -/
def setCell (r : Skimmer.Row) (c : String) (v : Cell) : Skimmer.Row :=
  if (r.lookup c).isSome then
    r.map (fun kv => if kv.1 = c then (c, v) else kv)
  else r ++ [(c, v)]

/-- Assign a column (`self.pile["c"] = vals`): overwrites in place or
appends a new column; never raises. -/
def setCol (p : PileDF) (c : String) (vals : List Cell) : PileDF :=
  { cols := if p.cols.contains c then p.cols else p.cols ++ [c],
    rows := List.zipWith (fun r v => setCell r c v) p.rows vals }

/-- pd.to_datetime on one cell: NaN stays NaT (absent), a string is parsed
by the library capability `td` (ValueError when unparseable), any other
cell type raises. -/
def toDatetimeCell (td : String → Option CalDate) : Cell → Except PyErr Cell
  | Cell.absent => Except.ok Cell.absent
  | Cell.str s =>
    match td s with
    | some d => Except.ok (Cell.timestamp d)
    | none => Except.error PyErr.valueError
  | _ => Except.error PyErr.valueError

/-- Python len() of a cell value: length of a string in characters, length
of a list in elements; len(nan) and len(Timestamp) raise TypeError. -/
def pyLenCell : Cell → Except PyErr Cell
  | Cell.str s => Except.ok (Cell.int s.length)
  | Cell.strList l => Except.ok (Cell.int l.length)
  | _ => Except.error PyErr.typeError

/-- The lambda `x.split(" ")` applied to one cell: only a string has a
split method; NaN or a list raises AttributeError. -/
def splitCell : Cell → Except PyErr Cell
  | Cell.str s => Except.ok (Cell.strList (s.splitOn " "))
  | _ => Except.error PyErr.attributeError

/-- One `pile[c] = pd.to_datetime(pile[c])` statement of Paper.process. -/
def stepToDatetime (td : String → Option CalDate) (c : String) (p : PileDF) :
    Except PyErr PileDF :=
  match getCol p c with
  | Except.error e => Except.error e
  | Except.ok cells =>
    match mapExcept (toDatetimeCell td) cells with
    | Except.error e => Except.error e
    | Except.ok parsed => Except.ok (setCol p c parsed)

/-- The statement `pile["n_authors"] = pile["author"].map(len)`. -/
def stepNAuthors (p : PileDF) : Except PyErr PileDF :=
  match getCol p "author" with
  | Except.error e => Except.error e
  | Except.ok cells =>
    match mapExcept pyLenCell cells with
    | Except.error e => Except.error e
    | Except.ok lens => Except.ok (setCol p "n_authors" lens)

/-- The statement `pile["categories"] = pile["categories"].apply(split)`. -/
def stepCategories (p : PileDF) : Except PyErr PileDF :=
  match getCol p "categories" with
  | Except.error e => Except.error e
  | Except.ok cells =>
    match mapExcept splitCell cells with
    | Except.error e => Except.error e
    | Except.ok split => Except.ok (setCol p "categories" split)

/-- Paper.process (lines 137-150): the five statements run in order inside
one `try` block; a KeyError from any statement is caught by `except
KeyError: pass`, keeping the mutations already applied; any other
exception (TypeError, ValueError, AttributeError) propagates. -/
def process (td : String → Option CalDate) (p0 : PileDF) : Except PyErr PileDF :=
  match stepToDatetime td "created" p0 with
  | Except.error PyErr.keyError => Except.ok p0
  | Except.error e => Except.error e
  | Except.ok p1 =>
    match stepToDatetime td "updated" p1 with
    | Except.error PyErr.keyError => Except.ok p1
    | Except.error e => Except.error e
    | Except.ok p2 =>
      match stepToDatetime td "datestamp" p2 with
      | Except.error PyErr.keyError => Except.ok p2
      | Except.error e => Except.error e
      | Except.ok p3 =>
        match stepNAuthors p3 with
        | Except.error PyErr.keyError => Except.ok p3
        | Except.error e => Except.error e
        | Except.ok p4 =>
          match stepCategories p4 with
          | Except.error PyErr.keyError => Except.ok p4
          | Except.error e => Except.error e
          | Except.ok p5 => Except.ok p5

end Paper

namespace inSPIRE

/-- The query parameters substituted into the inSPIRE BASE_URL template
(src/arxiv.py lines 388-392 and 405-411). -/
structure UrlDict where
  arxiv_id : String
  output_format : String
  records_in_group : Nat
  jump_to_record : Nat

/-- The ASCII single-quote character, as Python repr uses around strings. -/
def sq : String := String.singleton (Char.ofNat 39)

/-- Python str() of a cell, as used when substituting record["id"] into
the URL template (repr quoting for list elements). -/
def cellStr : Cell → String
  | Cell.absent => "nan"
  | Cell.str s => s
  | Cell.strList l => "[" ++ String.intercalate ", " (l.map (fun s => sq ++ s ++ sq)) ++ "]"
  | Cell.timestamp d => Paper.formatYMD d
  | Cell.int n => toString n

/-- BASE_URL.format(**url_dict) (lines 388-392, 451). -/
def inspireUrl (ud : UrlDict) : String :=
  "http://inspirehep.net/search?p=refersto:" ++ ud.arxiv_id ++
    "&of=" ++ ud.output_format ++
    "&rg=" ++ toString ud.records_in_group ++
    "&jrec=" ++ toString ud.jump_to_record

/-- One response of the citation-search endpoint: whether response.ok, the
parsed document, and the raw text. -/
structure CiteResponse where
  ok : Bool
  doc : Node
  text : String

/-- inSPIRE._count_citations_in (lines 435-440): number of `pre` elements
in the page. -/
def count_citations_in (soup : Node) : Nat :=
  (find_all soup "pre").length

/-- The statement `print("arxiv_id: {arxiv_id}\n").format(**url_dict)`
(line 457): print returns None, and None.format raises AttributeError on
every execution. -/
def printFormatStmt : Except PyErr Unit :=
  Except.error PyErr.attributeError

/-- The `while there_is_more` loop of inSPIRE.harvest (lines 453-486),
driven by a deterministic endpoint `respond` and bounded by fuel (the
source loop has no bound of its own). Each iteration issues a GET, then
executes the print statement of line 457 (which raises), then on an ok
response accumulates the page's citation count and continues only while
the page yielded a nonzero count, resetting jump_to_record to
records_in_group; a non-ok response breaks with the partial count. -/
def harvestCiteLoop (respond : String → CiteResponse) :
    Nat → UrlDict → Nat → Except PyErr Nat
  | 0, _, _ => Except.error PyErr.incompleteTrace
  | fuel + 1, ud, tot =>
    let r := respond (inspireUrl ud)
    match printFormatStmt with
    | Except.error e => Except.error e
    | Except.ok _ =>
      if r.ok then
        let citations := count_citations_in r.doc
        if 0 < citations then
          harvestCiteLoop respond fuel
            { ud with jump_to_record := ud.records_in_group } (tot + citations)
        else Except.ok (tot + citations)
      else Except.ok tot

/-- inSPIRE.harvest (lines 443-486) for one record: substitute the record's
id into the url_dict and run the paging loop from a zero total. -/
def harvest (respond : String → CiteResponse) (fuel : Nat) (baseUd : UrlDict)
    (record : Skimmer.Row) : Except PyErr Nat :=
  match record.lookup "id" with
  | none => Except.error PyErr.keyError
  | some v => harvestCiteLoop respond fuel { baseUd with arxiv_id := cellStr v } 0

/-- np.array_split section sizes: k elements into n sections, the first
k mod n sections one element longer. -/
def splitSizes (k n : Nat) : List Nat :=
  (List.range n).map (fun i => if i < k % n then k / n + 1 else k / n)

/-- Cut a list into consecutive chunks of the given sizes. -/
def takeChunks (l : List α) : List Nat → List (List α)
  | [] => []
  | s :: ss => l.take s :: takeChunks (l.drop s) ss

/-- np.array_split(l, n): n contiguous chunks, order preserved. -/
def array_split (l : List α) (n : Nat) : List (List α) :=
  takeChunks l (splitSizes l.length n)

/-- inSPIRE.get_citations (lines 415-421): split the pile into n_chunks
contiguous chunks, harvest each row of each chunk (pool.map preserves
chunk order; a worker exception propagates at the join), concatenate the
per-chunk results in order, and attach them to the rows as the
n_citations column. -/
def get_citations (respond : String → CiteResponse) (fuel : Nat)
    (baseUd : UrlDict) (pile : List Skimmer.Row) (n : Nat) :
    Except PyErr (List (Skimmer.Row × Nat)) :=
  match mapExcept (fun chunk => mapExcept (harvest respond fuel baseUd) chunk)
      (array_split pile n) with
  | Except.error e => Except.error e
  | Except.ok countChunks => Except.ok (pile.zip countChunks.flatten)

end inSPIRE

/-- Looking up a key in a row built by pairing each schema column with a
computed value returns that computed value. -/
theorem lookup_map_pair (f : String → Cell) (schema : List String) (c : String)
    (hc : c ∈ schema) :
    (schema.map (fun col => (col, f col))).lookup c = some (f c) := by
  induction schema with
  | nil => cases hc
  | cons a as ih =>
    by_cases hca : c = a
    · subst hca; simp [List.lookup]
    · rcases List.mem_cons.mp hc with h | h
      · exact absurd h hca
      · have hfalse : (c == a) = false := beq_eq_false_iff_ne.mpr hca
        simp [List.lookup, hfalse, ih h]

/-- C1: for every record fragment and requested field schema, the skimmer
assigns each schema field exactly per match count against the fragment:
zero matching child elements yield the absent (NaN) value, exactly one
match yields the single extracted text as a scalar, and two or more
matches yield the ordered list of extracted texts in document order,
uniformly in the field name. -/
theorem c1_extractor_cardinality (bowls : List Node) (schema : List String)
    (i : Nat) (c : String) (hi : i < bowls.length) (hc : c ∈ schema) :
    ((Skimmer.skim bowls schema).getD i []).lookup c =
      some (match Skimmer.find (bowls.getD i (Node.text "")) c with
            | [] => Cell.absent
            | [s] => Cell.str s
            | l => Cell.strList l) := by
  have hlen : i < (Skimmer.skim bowls schema).length := by
    simpa [Skimmer.skim] using hi
  rw [List.getD_eq_getElem _ _ hlen, List.getD_eq_getElem _ _ hi]
  show (Skimmer.skim bowls schema)[i].lookup c = some (Skimmer.skimField bowls[i] c)
  have : (Skimmer.skim bowls schema)[i] =
      schema.map (fun column => (column, Skimmer.skimField bowls[i] column)) := by
    simp [Skimmer.skim]
  rw [this]
  exact lookup_map_pair (fun column => Skimmer.skimField bowls[i] column) schema c hc

/-- A record fragment with one title, two authors and no doi. -/
def c1bowl : Node :=
  Node.elem "record"
    [Node.elem "title" [Node.text " A Title "],
     Node.elem "author" [Node.elem "keyname" [Node.text "Ann"]],
     Node.elem "author" [Node.elem "keyname" [Node.text "Bob"]]]

/-- Witness for C1 at a concrete fragment: the repeated author field is
extracted as the ordered list of both author texts. -/
theorem c1_extractor_cardinality_witness :
    ((Skimmer.skim [c1bowl] ["title", "author", "doi"]).getD 0 []).lookup "author" =
      some (Cell.strList ["Ann", "Bob"]) :=
  c1_extractor_cardinality [c1bowl] ["title", "author", "doi"] 0 "author"
    (by decide) (by decide)

/-- Consuming a block of token-carrying pages advances the cursor page by
page: each fetch logs its URL, adds the page to the pot, and moves to the
URL built from that page's token. -/
theorem harvestLoop_tokens (pages : List Node) :
    ∀ (rest : List arXiv.FetchResult) (url : String) (log : arXiv.HarvestLog),
    (∀ p ∈ pages, (arXiv.check_for_token p).isSome = true) →
    arXiv.harvestLoop (pages.map arXiv.FetchResult.ok ++ rest) url log =
      arXiv.harvestLoop rest (resumeAfter url pages)
        ⟨log.urls ++ urlChain url pages, log.pot ++ pages, log.sleeps⟩ := by
  induction pages with
  | nil =>
    intro rest url log _
    simp [urlChain, resumeAfter]
  | cons p ps ih =>
    intro rest url log hp
    have hpS : (arXiv.check_for_token p).isSome = true := hp p (by simp)
    obtain ⟨tok, htok⟩ := Option.isSome_iff_exists.mp hpS
    have hturl : arXiv.BASE_URL ++ "resumptionToken=" ++ elemText tok = tokenUrl p := by
      simp [tokenUrl, tokenText, htok]
    simp only [List.map_cons, List.cons_append, arXiv.harvestLoop, htok]
    rw [hturl]
    simp only [List.append_eq]
    rw [ih rest (tokenUrl p) _ (fun q hq => hp q (List.mem_cons_of_mem p hq))]
    simp [urlChain, resumeAfter, List.append_assoc]

/-- The URL log of a token-driven run: the initial URL followed by one
resumption URL per token-carrying page. -/
theorem urlChain_resume (pages : List Node) :
    ∀ url, urlChain url pages ++ [resumeAfter url pages] =
      url :: pages.map tokenUrl := by
  induction pages with
  | nil => intro url; simp [urlChain, resumeAfter]
  | cons p ps ih => intro url; simp [urlChain, resumeAfter, ih]

/-- C2: for a response sequence of n pages each carrying a resumption token
followed by one page carrying none, the harvest performs exactly n + 1
fetches; each resumption URL is the fixed base endpoint plus the single
parameter resumptionToken=<token text> (no from/until/metadataPrefix/set
parameters remain); the pot accumulates all n + 1 pages in page order, the
pile receives all their records in page order, and the run terminates
successfully with no sleeps. -/
theorem c2_resumption_pagination (pages : List Node) (q : Node)
    (url₀ : String) (schema : List String)
    (hp : ∀ p ∈ pages, (arXiv.check_for_token p).isSome = true)
    (hq : arXiv.check_for_token q = none) :
    arXivRun (pages.map arXiv.FetchResult.ok ++ [arXiv.FetchResult.ok q]) url₀ schema =
      (⟨url₀ :: pages.map tokenUrl, pages ++ [q], []⟩,
       Except.ok (Skimmer.skim (Skimmer.scoop (pages ++ [q])) schema)) ∧
    (url₀ :: pages.map tokenUrl).length = pages.length + 1 := by
  constructor
  · unfold arXivRun
    rw [harvestLoop_tokens pages [arXiv.FetchResult.ok q] url₀ ⟨[], [], []⟩ hp]
    simp [arXiv.harvestLoop, hq, urlChain_resume]
  · simp

/-- Three concrete token-carrying pages. -/
def c2page (t : String) : Node :=
  Node.elem "OAI-PMH"
    [Node.elem "ListRecords"
      [Node.elem "record" [Node.elem "id" [Node.text t]],
       Node.elem "resumptionToken" [Node.text t]]]

/-- A concrete final page with records but no resumption token. -/
def c2last : Node :=
  Node.elem "OAI-PMH"
    [Node.elem "ListRecords" [Node.elem "record" [Node.elem "id" [Node.text "last"]]]]

/-- Witness for C2: a simulated endpoint returning 3 token pages then one
final page produces exactly 4 fetches with the three resumption URLs, and
accumulates the records of all 4 pages in page order. -/
theorem c2_resumption_pagination_witness :
    arXivRun ([c2page "t1", c2page "t2", c2page "t3"].map arXiv.FetchResult.ok ++
        [arXiv.FetchResult.ok c2last]) (arXiv.initialUrl "2020-01-01" "2020-01-02" "physics:astro-ph") ["id"] =
      (⟨arXiv.initialUrl "2020-01-01" "2020-01-02" "physics:astro-ph" ::
          [c2page "t1", c2page "t2", c2page "t3"].map tokenUrl,
        [c2page "t1", c2page "t2", c2page "t3"] ++ [c2last], []⟩,
       Except.ok (Skimmer.skim (Skimmer.scoop ([c2page "t1", c2page "t2", c2page "t3"] ++ [c2last])) ["id"])) ∧
    (arXiv.initialUrl "2020-01-01" "2020-01-02" "physics:astro-ph" ::
        [c2page "t1", c2page "t2", c2page "t3"].map tokenUrl).length =
      [c2page "t1", c2page "t2", c2page "t3"].length + 1 :=
  c2_resumption_pagination [c2page "t1", c2page "t2", c2page "t3"] c2last
    (arXiv.initialUrl "2020-01-01" "2020-01-02" "physics:astro-ph") ["id"]
    (by decide) rfl

/-- C3: for every run of consecutive 503 responses whose bodies carry the
pattern `Retry after <N> seconds`, the harvest sleeps exactly the hinted
durations in order, re-issues each GET against the identical URL (one log
entry per retry, all equal to the current URL), and then resumes normal
processing of the remaining trace at that same URL — the page is never
skipped, and the number of consecutive retries is unbounded (the theorem
holds for every length of the 503 block). -/
theorem c3_503_backoff_retry (bodies : List String) :
    ∀ (ts : List Nat) (rest : List arXiv.FetchResult) (url : String)
      (log : arXiv.HarvestLog),
    bodies.map arXiv.sleep_off_503 = ts.map some →
    arXiv.harvestLoop (bodies.map (arXiv.FetchResult.httpError 503) ++ rest) url log =
      arXiv.harvestLoop rest url
        ⟨log.urls ++ List.replicate bodies.length url, log.pot, log.sleeps ++ ts⟩ := by
  induction bodies with
  | nil =>
    intro ts rest url log h
    cases ts with
    | nil => simp
    | cons t ts' => simp at h
  | cons b bs ih =>
    intro ts rest url log h
    cases ts with
    | nil => simp at h
    | cons t ts' =>
      simp only [List.map_cons, List.cons.injEq] at h
      obtain ⟨hb, htail⟩ := h
      simp only [List.map_cons, List.cons_append, arXiv.harvestLoop, hb]
      simp only [List.append_eq, if_true]
      rw [ih ts' rest url _ htail]
      simp [List.replicate_succ, List.append_assoc]

/-- Witness for C3: two consecutive 503 responses with the body
`Retry after 5 seconds` produce two sleeps of exactly 5 seconds and two
re-requests of the identical URL before the loop continues. -/
theorem c3_503_backoff_retry_witness :
    arXiv.harvestLoop
        (["Retry after 5 seconds", "Retry after 5 seconds"].map
            (arXiv.FetchResult.httpError 503) ++ [arXiv.FetchResult.ok c2last])
        "u0" ⟨[], [], []⟩ =
      arXiv.harvestLoop [arXiv.FetchResult.ok c2last] "u0"
        ⟨[] ++ List.replicate 2 "u0", [], [] ++ [5, 5]⟩ :=
  c3_503_backoff_retry ["Retry after 5 seconds", "Retry after 5 seconds"]
    [5, 5] [arXiv.FetchResult.ok c2last] "u0" ⟨[], [], []⟩ (by decide)

/-- C5: a 503 response whose body lacks the `Retry after <integer> seconds`
pattern makes sleep_off_503 raise (the regex match is None and indexing it
raises TypeError, the spec's MalformedBackoffHint); the harvest fails with
that error and issues no request beyond the failing one, whatever responses
would have followed. -/
theorem c5_malformed_backoff_fatal (body : String) (rest : List arXiv.FetchResult)
    (url₀ : String) (schema : List String)
    (h : arXiv.sleep_off_503 body = none) :
    arXivRun (arXiv.FetchResult.httpError 503 body :: rest) url₀ schema =
      (⟨[url₀], [], []⟩, Except.error PyErr.typeError) := by
  unfold arXivRun
  simp [arXiv.harvestLoop, h]

/-- Witness for C5: the malformed body "Service unavailable" aborts the
harvest after the single failing request even though a further page was
available. -/
theorem c5_malformed_backoff_fatal_witness :
    arXivRun (arXiv.FetchResult.httpError 503 "Service unavailable" ::
        [arXiv.FetchResult.ok c2last]) "u0" ["id"] =
      (⟨["u0"], [], []⟩, Except.error PyErr.typeError) :=
  c5_malformed_backoff_fatal "Service unavailable" [arXiv.FetchResult.ok c2last]
    "u0" ["id"] (by decide)

/-- C4 counterexample: a successful page holding one record and a
resumption token is followed by a transport failure. The claim says the
page's records are returned to the caller in the record table; instead the
exception propagates out of the constructor before scoop and skim run, so
the run yields an error and no record table at all. -/
theorem c4_transport_counterexample :
    (arXivRun [arXiv.FetchResult.ok (c2page "t1"), arXiv.FetchResult.transportFailure]
        (arXiv.initialUrl "2020-01-01" "2020-01-02" "physics:astro-ph") ["id"]).2 =
      Except.error PyErr.transportError := rfl

/-- C4 amended: on a transport failure the harvest halts with no automatic
retry — exactly one request per prior page plus the single failing request
is issued, whatever responses would have followed — but the uncaught
exception aborts the constructor before extraction, so the caller receives
an error and no record table; the raw pages fetched earlier remain only in
the internal pot, their records never extracted. -/
theorem c4_transport_halts_without_records (pages : List Node)
    (rest : List arXiv.FetchResult) (url₀ : String) (schema : List String)
    (hp : ∀ p ∈ pages, (arXiv.check_for_token p).isSome = true) :
    arXivRun (pages.map arXiv.FetchResult.ok ++
        arXiv.FetchResult.transportFailure :: rest) url₀ schema =
      (⟨url₀ :: pages.map tokenUrl, pages, []⟩,
       Except.error PyErr.transportError) ∧
    (url₀ :: pages.map tokenUrl).length = pages.length + 1 := by
  constructor
  · unfold arXivRun
    rw [harvestLoop_tokens pages (arXiv.FetchResult.transportFailure :: rest) url₀
        ⟨[], [], []⟩ hp]
    simp [arXiv.harvestLoop, urlChain_resume]
  · simp

/-- Witness for the amended C4: one ok page then a transport failure, with
a further page available that is never requested. -/
theorem c4_transport_halts_without_records_witness :
    arXivRun ([c2page "t1"].map arXiv.FetchResult.ok ++
        arXiv.FetchResult.transportFailure :: [arXiv.FetchResult.ok c2last]) "u0" ["id"] =
      (⟨"u0" :: [c2page "t1"].map tokenUrl, [c2page "t1"], []⟩,
       Except.error PyErr.transportError) ∧
    ("u0" :: [c2page "t1"].map tokenUrl).length = [c2page "t1"].length + 1 :=
  c4_transport_halts_without_records [c2page "t1"] [arXiv.FetchResult.ok c2last]
    "u0" ["id"] (by decide)

/-- C9: a resumptionToken element whose text is empty is still a found
token — the cursor does not treat the harvest as complete but issues a
further request whose URL is the base endpoint plus `resumptionToken=`
with empty token text; the loop reaches its done state only when
check_for_token finds no token element at all. -/
theorem c9_empty_token_continues (s tok q : Node) (rest : List arXiv.FetchResult)
    (url : String) (log : arXiv.HarvestLog)
    (hs : arXiv.check_for_token s = some tok) (ht : elemText tok = "")
    (hq : arXiv.check_for_token q = none) :
    arXiv.harvestLoop (arXiv.FetchResult.ok s :: rest) url log =
      arXiv.harvestLoop rest (arXiv.BASE_URL ++ "resumptionToken=")
        ⟨log.urls ++ [url], log.pot ++ [s], log.sleeps⟩ ∧
    arXiv.harvestLoop (arXiv.FetchResult.ok q :: rest) url log =
      (⟨log.urls ++ [url], log.pot ++ [q], log.sleeps⟩, arXiv.Outcome.done) := by
  constructor
  · simp [arXiv.harvestLoop, hs, ht]
  · simp [arXiv.harvestLoop, hq]

/-- A page whose ListRecords carries a resumptionToken element with empty
text content. -/
def c9page : Node :=
  Node.elem "OAI-PMH"
    [Node.elem "ListRecords"
      [Node.elem "record" [Node.elem "id" [Node.text "r1"]],
       Node.elem "resumptionToken" []]]

/-- Witness for C9: the empty-token page triggers a further request at the
URL ending in `resumptionToken=`, while a tokenless page ends the loop. -/
theorem c9_empty_token_continues_witness :
    arXiv.harvestLoop [arXiv.FetchResult.ok c9page, arXiv.FetchResult.ok c2last] "u0" ⟨[], [], []⟩ =
      arXiv.harvestLoop [arXiv.FetchResult.ok c2last] (arXiv.BASE_URL ++ "resumptionToken=")
        ⟨[] ++ ["u0"], [] ++ [c9page], []⟩ ∧
    arXiv.harvestLoop [arXiv.FetchResult.ok c2last, arXiv.FetchResult.ok c2last] "u0" ⟨[], [], []⟩ =
      (⟨[] ++ ["u0"], [] ++ [c2last], []⟩, arXiv.Outcome.done) :=
  c9_empty_token_continues c9page (Node.elem "resumptionToken" []) c2last
    [arXiv.FetchResult.ok c2last] "u0" ⟨[], [], []⟩ rfl rfl rfl

/-- A deterministic citation endpoint: every page is ok and holds one
`pre` element. -/
def c6respond : String → inSPIRE.CiteResponse :=
  fun _ => ⟨true, Node.elem "html" [Node.elem "pre" [Node.text "cite"]], ""⟩

/-- One record row holding an id. -/
def c6row : Skimmer.Row := [("id", Cell.str "1234.5678")]

/-- The url_dict defaults of inSPIRE.__init__ (lines 394-411): arxiv_id is
None until a record is substituted, output_format "hx", records_in_group
250, jump_to_record 1. -/
def c6baseUd : inSPIRE.UrlDict := ⟨"", "hx", 250, 1⟩

/-- C6: citation enrichment of a 10-row table with concurrency 4 never
produces the enriched table: the statement
`print("arxiv_id: {arxiv_id}\n").format(**url_dict)` at line 457 calls
`.format` on the None returned by print, raising AttributeError on the
very first loop iteration of every row's harvest, which propagates through
pool.map and aborts get_citations before any citation count is produced. -/
theorem c6_enrichment_print_format_bug :
    inSPIRE.get_citations c6respond 5 c6baseUd (List.replicate 10 c6row) 4 =
      Except.error PyErr.attributeError := rfl

/-- C7 evidence: a table whose author cell is the single scalar
"John Smith" (one author) gets n_authors = 10, the character count of the
string, because process maps Python len over the author column; and a
table whose author cell is absent (NaN) makes process raise TypeError
(len(nan)), since only KeyError is caught. The claim's cardinality
semantics (scalar → 1, absent → 0) does not hold. -/
def c7td : String → Option CalDate := fun _ => some ⟨2020, 1, 1⟩

/-- A full-schema row whose author field is a single scalar string. -/
def c7row : Skimmer.Row :=
  [("id", Cell.str "1"), ("created", Cell.str "2020-01-01"),
   ("updated", Cell.str "2020-01-02"), ("datestamp", Cell.str "2020-01-03"),
   ("author", Cell.str "John Smith"), ("categories", Cell.str "astro-ph.CO hep-th")]

/-- The pile holding that single row. -/
def c7pile : Paper.PileDF :=
  ⟨["id", "created", "updated", "datestamp", "author", "categories"], [c7row]⟩

/-- The same pile but with the author field absent (zero matches). -/
def c7pileAbsent : Paper.PileDF :=
  ⟨["id", "created", "updated", "datestamp", "author", "categories"],
   [[("id", Cell.str "1"), ("created", Cell.str "2020-01-01"),
     ("updated", Cell.str "2020-01-02"), ("datestamp", Cell.str "2020-01-03"),
     ("author", Cell.absent), ("categories", Cell.str "astro-ph.CO hep-th")]]⟩

/-- C7: post-processing a row with the scalar author "John Smith" yields
an author count of 10 (the string's length), not the cardinality 1 the
claim states; and an absent author raises TypeError instead of counting 0. -/
theorem c7_author_count_is_string_length :
    (match Paper.process c7td c7pile with
     | Except.ok p => (p.rows.getD 0 []).lookup "n_authors"
     | Except.error _ => none) = some (Cell.int 10) ∧
    Paper.process c7td c7pileAbsent = Except.error PyErr.typeError :=
  ⟨rfl, rfl⟩

/-- A date-parsing capability that accepts everything, so that nothing in
the C8 counterexample can fail for parsing reasons. -/
def c8td : String → Option CalDate := fun _ => some ⟨2020, 1, 2⟩

/-- A row of a table that has every standard post-processed column except
created. -/
def c8row : Skimmer.Row :=
  [("updated", Cell.str "2020-01-02"), ("datestamp", Cell.str "2020-01-03"),
   ("author", Cell.str "A B"), ("categories", Cell.str "astro-ph.CO hep-th")]

/-- The pile with columns updated, datestamp, author, categories — and no
created column. -/
def c8pile : Paper.PileDF :=
  ⟨["updated", "datestamp", "author", "categories"], [c8row]⟩

/-- C8 counterexample: on a table missing only the created column, process
completes without error but returns the table completely unchanged — the
present updated column is still the raw string and no n_authors column was
added — refuting that exactly the missing columns are skipped while
present columns are still processed. -/
theorem c8_missing_created_counterexample :
    Paper.process c8td c8pile = Except.ok c8pile ∧
    c8pile.cols.contains "n_authors" = false ∧
    (c8pile.rows.getD 0 []).lookup "updated" = some (Cell.str "2020-01-02") :=
  ⟨rfl, rfl, rfl⟩

/-- C8 amended: process completes without raising when a standard column
is missing, but the caught KeyError aborts the whole post-processing
block at the first missing column in the fixed statement order (created,
updated, datestamp, author, categories); every later step is skipped even
for columns that are present. In particular a table without the created
column is returned entirely unprocessed. -/
theorem c8_missing_created_skips_everything (td : String → Option CalDate)
    (p : Paper.PileDF) (h : p.cols.contains "created" = false) :
    Paper.process td p = Except.ok p := by
  have h' : "created" ∉ p.cols := by simpa using h
  unfold Paper.process Paper.stepToDatetime Paper.getCol
  simp [h']

/-- Witness for the amended C8: a single-column table without created is
returned unchanged and without error. -/
theorem c8_missing_created_skips_everything_witness :
    Paper.process c8td ⟨["author"], [[("author", Cell.str "A")]]⟩ =
      Except.ok ⟨["author"], [[("author", Cell.str "A")]]⟩ :=
  c8_missing_created_skips_everything c8td ⟨["author"], [[("author", Cell.str "A")]]⟩
    (by decide)

/-- C10: with the start date omitted Paper.__init__ defaults it to the
calendar date one day before the current date, with the end date omitted
it defaults to the current date, both rendered YYYY-mm-dd by strftime;
explicitly supplied dates are parsed and re-rendered YYYY-mm-dd before
use. -/
theorem c10_date_defaults (now : CalDate) (parse : String → Option CalDate)
    (s t : String) (ds dt : CalDate)
    (hs : parse s = some ds) (ht : parse t = some dt) :
    Paper.mkPaper now parse none none "physics:astro-ph" Paper.FieldsArg.everything =
      Except.ok ⟨Paper.formatYMD (Paper.predDay now), Paper.formatYMD now,
                 "physics:astro-ph", Paper.template⟩ ∧
    Paper.mkPaper now parse (some s) (some t) "physics:astro-ph" Paper.FieldsArg.everything =
      Except.ok ⟨Paper.formatYMD ds, Paper.formatYMD dt,
                 "physics:astro-ph", Paper.template⟩ := by
  constructor
  · simp [Paper.mkPaper, Paper.days_back, Paper.subDays, Paper.set_dict]
  · simp [Paper.mkPaper, Paper.check_date_format, hs, ht, Paper.set_dict]

/-- A concrete dateutil capability accepting two spelled-out dates. -/
def c10parse : String → Option CalDate :=
  fun u => if u = "March 5, 2020" then some ⟨2020, 3, 5⟩
           else if u = "2020/04/06" then some ⟨2020, 4, 6⟩
           else none

/-- Witness for C10 on 2026-03-01: the omitted start date becomes
2026-02-28 (the previous calendar day across the month boundary), the
omitted end date becomes 2026-03-01, and the two explicitly supplied
dates are normalized to 2020-03-05 and 2020-04-06. -/
theorem c10_date_defaults_witness :
    Paper.mkPaper ⟨2026, 3, 1⟩ c10parse none none "physics:astro-ph"
        Paper.FieldsArg.everything =
      Except.ok ⟨"2026-02-28", "2026-03-01", "physics:astro-ph", Paper.template⟩ ∧
    Paper.mkPaper ⟨2026, 3, 1⟩ c10parse (some "March 5, 2020") (some "2020/04/06")
        "physics:astro-ph" Paper.FieldsArg.everything =
      Except.ok ⟨"2020-03-05", "2020-04-06", "physics:astro-ph", Paper.template⟩ :=
  c10_date_defaults ⟨2026, 3, 1⟩ c10parse "March 5, 2020" "2020/04/06"
    ⟨2020, 3, 5⟩ ⟨2020, 4, 6⟩ (by decide) (by decide)

/-- Sanity check of the embedding: extraction strips whitespace and keeps
document order for repeated tags. -/
theorem sanity_find_strips_and_orders :
    Skimmer.find (Node.elem "record"
      [Node.elem "author" [Node.text " Ann "], Node.elem "author" [Node.text "Bob"]]) "author"
      = ["Ann", "Bob"] := by decide

/-- Sanity check of the embedding: the retry regex finds the hint anywhere
in the body and rejects a body without it. -/
theorem sanity_retry_hint :
    arXiv.sleep_off_503 "blah blah Retry after 35 seconds blah" = some 35 ∧
    arXiv.sleep_off_503 "Service unavailable" = none := by decide

/-- Sanity check of the embedding: check_for_token finds a nested token
element under ListRecords. -/
theorem sanity_check_for_token :
    arXiv.check_for_token (Node.elem "OAI-PMH"
      [Node.elem "ListRecords"
        [Node.elem "record" [], Node.elem "resumptionToken" [Node.text "tk"]]])
      = some (Node.elem "resumptionToken" [Node.text "tk"]) := rfl
